import Mathlib

/-!
Verification of the bookrec credential / session-lifecycle subsystem.

This file gives a shallow embedding of the auth-related parts of the
repository (the Go server in `src/unnamed/part_001` — handlers
`LoginHandler`, `RefreshHandler`, `LogoutHandler`, middleware
`AuthMiddleware`, helpers `generateToken`, `newRefreshToken`,
`hashRefreshToken`, `insertRefreshToken`, `revokeRefreshTokenByID` — and the
TypeScript client coordinator in `src/web/src/api/client.ts`) and proves or
refutes the specification's claims about it.

Modelling conventions:
* Time is `Nat` (seconds).  `time.Now().After(e)` is `now > e` (Go `After`
  is strict).
* The SHA-256 hex digest `hashRefreshToken` is a parameter
  `hashFn : String → String`: the claims depend only on it being a
  deterministic function, with collision-freeness stated as explicit
  hypotheses where needed.
* bcrypt comparison is a parameter `bcryptOk : String → String → Bool`
  (`bcryptOk h p = true` models `bcrypt.CompareHashAndPassword(h, p) == nil`).
* The random 256-bit plaintext drawn by `newRefreshToken` is passed in as an
  explicit `freshPlain` argument.
* The database is a pure value; each SQL statement of the source becomes a
  pure function on it, with conditional updates returning their
  affected-row count.
-/

namespace Bookrec

/-! ### Go `strings.TrimSpace`

`RefreshHandler`, `LogoutHandler` and `LoginHandler` all trim their form
inputs with `strings.TrimSpace`, which drops leading and trailing Unicode
white space (`unicode.IsSpace`). -/

/-- Go `unicode.IsSpace`: '\t', '\n', '\v', '\f', '\r', ' ', U+0085, U+00A0,
and the Unicode `White_Space` code points above U+00FF. -/
def goIsSpace (c : Char) : Bool :=
  c.val = 9 || c.val = 10 || c.val = 11 || c.val = 12 || c.val = 13 ||
  c.val = 32 || c.val = 0x85 || c.val = 0xA0 || c.val = 0x1680 ||
  (0x2000 ≤ c.val && c.val ≤ 0x200A) ||
  c.val = 0x2028 || c.val = 0x2029 || c.val = 0x202F || c.val = 0x205F ||
  c.val = 0x3000

/-- Trim on the underlying character list: drop white space from the front,
then from the back. -/
def goTrimSpaceList (l : List Char) : List Char :=
  ((l.dropWhile goIsSpace).reverse.dropWhile goIsSpace).reverse

/-- Go `strings.TrimSpace`. -/
def goTrimSpace (s : String) : String :=
  ⟨goTrimSpaceList s.data⟩

/-! ### Data model

`refresh_tokens` table (migration adding it, in `src/unnamed/part_003`):
id, user_id, token_hash (UNIQUE), expires_at, revoked_at NULL, created_at.
`users`: id, email (unique), password_hash. -/

/-- One row of the `refresh_tokens` table. -/
structure RefreshTokenRow where
  id : Nat
  userId : Nat
  tokenHash : String
  expiresAt : Nat
  revokedAt : Option Nat
  deriving Repr, DecidableEq

/-- One row of the `users` table (the columns the auth core touches). -/
structure UserRow where
  id : Nat
  email : String
  passwordHash : String
  deriving Repr, DecidableEq

/-- The persistent store. `nextTokenId` models MySQL AUTO_INCREMENT. -/
structure DB where
  users : List UserRow
  refreshTokens : List RefreshTokenRow
  nextTokenId : Nat
  deriving Repr, DecidableEq

/-- `SELECT id, user_id, expires_at, revoked_at FROM refresh_tokens WHERE
token_hash = ? LIMIT 1` (`token_hash` is UNIQUE). -/
def lookupRefreshTokenByHash (db : DB) (tokenHash : String) :
    Option RefreshTokenRow :=
  db.refreshTokens.find? (fun r => r.tokenHash == tokenHash)

/-- `SELECT id, password_hash FROM users WHERE email = ?`. -/
def lookupUserByEmail (db : DB) (email : String) : Option UserRow :=
  db.users.find? (fun u => u.email == email)

/-- `SELECT email FROM users WHERE id = ?`. -/
def lookupUserById (db : DB) (id : Nat) : Option UserRow :=
  db.users.find? (fun u => u.id == id)

/-- The row transformation of `UPDATE refresh_tokens SET revoked_at = NOW()
WHERE id = ? AND revoked_at IS NULL` applied to one row. -/
def revokeRowIfActiveById (id now : Nat) (r : RefreshTokenRow) :
    RefreshTokenRow :=
  if r.id = id ∧ r.revokedAt = none then { r with revokedAt := some now }
  else r

/-- `revokeRefreshTokenByID` (src/unnamed/part_001 lines 103-110): the
conditional update, together with the affected-row count the driver would
report.  The Go function returns only `err` and discards the count
(`db.Exec` result dropped with `_`), which is why callers below ignore the
`Nat` component. -/
def revokeRefreshTokenByID (db : DB) (id now : Nat) : DB × Nat :=
  (⟨db.users, db.refreshTokens.map (revokeRowIfActiveById id now),
    db.nextTokenId⟩,
   (db.refreshTokens.filter
      (fun r => r.id == id && r.revokedAt == none)).length)

/-- `insertRefreshToken` (lines 95-101): `INSERT INTO refresh_tokens
(user_id, token_hash, expires_at) VALUES (?, ?, ?)`. -/
def insertRefreshToken (db : DB) (userId : Nat) (tokenHash : String)
    (expiresAt : Nat) : DB :=
  ⟨db.users,
   db.refreshTokens ++
     [⟨db.nextTokenId, userId, tokenHash, expiresAt, none⟩],
   db.nextTokenId + 1⟩

/-! ### Token signer -/

/-- The signing algorithms a JWT header can claim. -/
inductive JwtAlg where
  | hs256 | hs384 | hs512 | rs256 | es256 | algNone
  deriving Repr, DecidableEq

/-- `AuthClaims` (lines 39-43 plus registered claims used by
`generateToken`). -/
structure AuthClaims where
  userId : Nat
  email : String
  issuer : String
  issuedAt : Nat
  expiresAt : Nat
  deriving Repr, DecidableEq

/-- The algorithm `generateToken` signs with:
`jwt.NewWithClaims(jwt.SigningMethodHS256, claims)` (line 73). -/
def issuedTokenAlg : JwtAlg := .hs256

/-- `generateToken` (lines 60-75): claims of the issued access token.
`ExpiresAt = now.Add(24 * time.Hour)`. -/
def generateToken (jwtIssuer : String) (userId : Nat) (email : String)
    (now : Nat) : AuthClaims :=
  ⟨userId, email, jwtIssuer, now, now + 24 * 3600⟩

/-! ### Refresh TTL configuration

`var refreshTokenTTL = 30 * 24 * time.Hour` (line 37), overridable in `main`
(lines 166-170) by `REFRESH_TOKEN_TTL_HOURS` when it parses to a positive
integer. -/

/-- The default refresh-token TTL, in seconds: 30 days. -/
def defaultRefreshTokenTTL : Nat := 30 * 24 * 3600

/-- The effective TTL after `main`'s override logic.  `envHours` is the
result of `strconv.Atoi` on the trimmed `REFRESH_TOKEN_TTL_HOURS` value
(`none` when the variable is empty or does not parse). -/
def effectiveRefreshTokenTTL (envHours : Option Int) : Nat :=
  match envHours with
  | some hours => if 0 < hours then hours.toNat * 3600
                  else defaultRefreshTokenTTL
  | none => defaultRefreshTokenTTL

/-! ### RefreshHandler (src/unnamed/part_001 lines 372-438) -/

/-- The responses `RefreshHandler` can produce. -/
inductive RefreshResult where
  /-- 400 "refresh_token required" -/
  | missingField
  /-- 401 "invalid refresh token" (no row for the hash) -/
  | invalidToken
  /-- 401 "refresh token revoked" -/
  | revoked
  /-- 401 "refresh token expired" -/
  | expired
  /-- 401 "invalid refresh token user" -/
  | invalidUser
  /-- 200 with a fresh access token and the new refresh plaintext -/
  | success (access : AuthClaims) (newRefreshToken : String)
  deriving Repr, DecidableEq

/-- `RefreshHandler`.  `hashFn` models `hashRefreshToken` (SHA-256 hex),
`freshPlain` the random plaintext drawn by `newRefreshToken`, `ttl` the
configured `refreshTokenTTL`.  Mirrors the source statement by statement;
note that the rotation step (line 413) calls `revokeRefreshTokenByID` and
inspects only its error, never the affected-row count. -/
def refreshHandler (hashFn : String → String) (jwtIssuer : String)
    (ttl : Nat) (db : DB) (now : Nat) (rawToken freshPlain : String) :
    DB × RefreshResult :=
  let refreshToken := goTrimSpace rawToken
  if refreshToken = "" then (db, .missingField)
  else
    let tokenHash := hashFn refreshToken
    match lookupRefreshTokenByHash db tokenHash with
    | none => (db, .invalidToken)
    | some row =>
      if row.revokedAt.isSome then (db, .revoked)
      else if now > row.expiresAt then
        -- best-effort cleanup: `_ = revokeRefreshTokenByID(rowID)`
        ((revokeRefreshTokenByID db row.id now).1, .expired)
      else
        match lookupUserById db row.userId with
        | none => (db, .invalidUser)
        | some user =>
          -- rotation: the affected-row count is discarded, as in Go
          let db1 := (revokeRefreshTokenByID db row.id now).1
          let newHash := hashFn freshPlain
          let db2 := insertRefreshToken db1 row.userId newHash (now + ttl)
          (db2, .success (generateToken jwtIssuer row.userId user.email now)
            freshPlain)

/-! ### LoginHandler (lines 319-361)

To settle the claim about the not-found branch's (absent) dummy bcrypt
comparison, the model also records the sequence of credential-relevant
operations the handler performs. -/

/-- Observable operations of `LoginHandler`, in source order. -/
inductive LoginOp where
  /-- the `SELECT id, password_hash FROM users WHERE email = ?` query -/
  | dbLookupUser
  /-- the `bcrypt.CompareHashAndPassword` call -/
  | bcryptCompare
  /-- `generateToken` -/
  | issueAccess
  /-- `newRefreshToken` -/
  | generateRefresh
  /-- `insertRefreshToken` -/
  | storeRefresh
  deriving Repr, DecidableEq

/-- The responses `LoginHandler` can produce. -/
inductive LoginResult where
  /-- 400 "email and password required" -/
  | missingField
  /-- 401 "invalid credentials" -/
  | invalidCredentials
  /-- 200 with tokens and the user object -/
  | success (access : AuthClaims) (refreshToken : String) (userId : Nat)
      (email : String)
  deriving Repr, DecidableEq

/-- `LoginHandler`, returning the updated store, the response, and the trace
of credential-relevant operations.  `bcryptOk h p = true` models
`bcrypt.CompareHashAndPassword([]byte(h), []byte(p)) == nil`. -/
def loginHandler (hashFn : String → String)
    (bcryptOk : String → String → Bool) (jwtIssuer : String) (ttl : Nat)
    (db : DB) (now : Nat) (rawEmail password freshPlain : String) :
    DB × LoginResult × List LoginOp :=
  let email := goTrimSpace rawEmail
  if email = "" ∨ password = "" then (db, .missingField, [])
  else
    match lookupUserByEmail db email with
    | none => (db, .invalidCredentials, [.dbLookupUser])
    | some user =>
      if bcryptOk user.passwordHash password = false then
        (db, .invalidCredentials, [.dbLookupUser, .bcryptCompare])
      else
        let refreshHash := hashFn freshPlain
        let db1 := insertRefreshToken db user.id refreshHash (now + ttl)
        (db1,
         .success (generateToken jwtIssuer user.id email now) freshPlain
           user.id email,
         [.dbLookupUser, .bcryptCompare, .issueAccess, .generateRefresh,
          .storeRefresh])

/-! ### LogoutHandler (lines 449-474) -/

/-- The responses `LogoutHandler` can produce. -/
inductive LogoutResult where
  /-- 400 "refresh_token required" -/
  | missingField
  /-- 401 "invalid refresh token" (no active row matched the hash) -/
  | invalidToken
  /-- 200 with the given message -/
  | success (message : String)
  deriving Repr, DecidableEq

/-- The row transformation of `UPDATE refresh_tokens SET revoked_at = NOW()
WHERE token_hash = ? AND revoked_at IS NULL` applied to one row. -/
def revokeRowIfActiveByHash (tokenHash : String) (now : Nat)
    (r : RefreshTokenRow) : RefreshTokenRow :=
  if r.tokenHash = tokenHash ∧ r.revokedAt = none then
    { r with revokedAt := some now }
  else r

/-- The affected-row count of that update. -/
def activeRowsWithHash (db : DB) (tokenHash : String) : Nat :=
  (db.refreshTokens.filter
    (fun r => r.tokenHash == tokenHash && r.revokedAt == none)).length

/-- `LogoutHandler`: trim, reject empty, hash, run the conditional update,
and fail with 401 when it affected no rows (unlike `RefreshHandler`, this
handler does read `RowsAffected`). -/
def logoutHandler (hashFn : String → String) (db : DB) (now : Nat)
    (rawToken : String) : DB × LogoutResult :=
  let refreshToken := goTrimSpace rawToken
  if refreshToken = "" then (db, .missingField)
  else
    let tokenHash := hashFn refreshToken
    let affected := activeRowsWithHash db tokenHash
    let db1 : DB :=
      ⟨db.users, db.refreshTokens.map (revokeRowIfActiveByHash tokenHash now),
       db.nextTokenId⟩
    if affected = 0 then (db1, .invalidToken)
    else (db1, .success "Logged out")

/-! ### AuthMiddleware (lines 112-142)

The middleware extracts the bearer token and parses it with a keyfunc that
accepts any `*jwt.SigningMethodHMAC` (line 122) — the whole HMAC family,
not one specific algorithm.  A presented token is modelled after parsing:
its claimed header algorithm, its claims, and whether its signature
verifies under the server's `jwtSecret` for that claimed algorithm. -/

/-- A presented access token, as seen after JWT parsing. -/
structure PresentedToken where
  alg : JwtAlg
  userId : Nat
  email : String
  expiresAt : Nat
  /-- the signature verifies under `jwtSecret` for the claimed `alg` -/
  sigValid : Bool
  deriving Repr, DecidableEq

/-- The keyfunc's method check (line 122):
`if _, ok := t.Method.(*jwt.SigningMethodHMAC); !ok` — it accepts every
member of the HMAC family. -/
def keyfuncAcceptsAlg : JwtAlg → Bool
  | .hs256 => true
  | .hs384 => true
  | .hs512 => true
  | _ => false

/-- Outcome of `AuthMiddleware` for a request. -/
inductive AuthOutcome where
  /-- 401 "missing or invalid Authorization header" -/
  | missingHeader
  /-- 401 "invalid token" / "invalid token claims" -/
  | invalidToken
  /-- the request proceeds with `auth_user_id` and `auth_email` set -/
  | proceed (userId : Nat) (email : String)
  deriving Repr, DecidableEq

/-- `AuthMiddleware`: `bearer = none` models a missing or non-`Bearer `
Authorization header.  Parsing succeeds when the keyfunc accepts the claimed
algorithm, the signature verifies, and the token is not expired
(golang-jwt v5 validates `exp`: valid while `now < exp`). -/
def authMiddleware (bearer : Option PresentedToken) (now : Nat) :
    AuthOutcome :=
  match bearer with
  | none => .missingHeader
  | some tok =>
    if keyfuncAcceptsAlg tok.alg && tok.sigValid && decide (now < tok.expiresAt)
    then .proceed tok.userId tok.email
    else .invalidToken

/-! ### LogoutAll

The repository's README and web client (`src/web/src/api/client.ts`
`logoutAll`, `authLogoutAll`; `src/web/src/App.tsx`) call
`POST /logout-all`, but the handler and its route registration are not
among the files under `src/` — only these callers and the README entry
("revoke all refresh tokens for the authenticated user, requires
`Authorization: Bearer`") are. -/

/-- Modelled from the spec: the row transformation of the revoke-all update
(`set revoked_at=now where user_id=? and revoked_at is null`) applied to one
row. -/
def revokeRowIfActiveByUser (userId now : Nat) (r : RefreshTokenRow) :
    RefreshTokenRow :=
  if r.userId = userId ∧ r.revokedAt = none then { r with revokedAt := some now }
  else r

/-- Modelled from the spec: `Refresh Ledger.revokeAll(userID)` — the missing
server-side revoke-all update, "the same conditional update applied to every
active row for the user", returning its affected-row count. -/
def revokeAllRefreshTokensForUser (db : DB) (userId now : Nat) : DB × Nat :=
  (⟨db.users,
    db.refreshTokens.map (revokeRowIfActiveByUser userId now),
    db.nextTokenId⟩,
   (db.refreshTokens.filter
      (fun r => r.userId == userId && r.revokedAt == none)).length)

/-- The responses the LogoutAll operation can produce. -/
inductive LogoutAllResult where
  /-- 401 from `AuthMiddleware` -/
  | unauthorized
  /-- 200 with a confirmation message -/
  | success (message : String)
  deriving Repr, DecidableEq

/-- Modelled from the spec: the missing `POST /logout-all` handler —
**LogoutAll**(userID taken from a verified access token): guarded by
`AuthMiddleware`, calls `revokeAll(userID)`, and "returns confirmation
regardless of how many rows were affected". -/
def logoutAllHandler (db : DB) (now : Nat)
    (bearer : Option PresentedToken) : DB × LogoutAllResult :=
  match authMiddleware bearer now with
  | .missingHeader => (db, .unauthorized)
  | .invalidToken => (db, .unauthorized)
  | .proceed userId _ =>
    ((revokeAllRefreshTokensForUser db userId now).1,
     .success "Logged out of all sessions")

/-! ### Concurrent Refresh: interleaving model (RefreshHandler, lines 372-438)

N concurrent `POST /refresh` requests present the same plaintext, whose hash
resolves to one shared `refresh_tokens` row (the contested row; the rows the
calls later insert carry fresh hashes and are never found by these lookups).
Each call runs the handler's four database statements in order:

1. the `SELECT ... WHERE token_hash` lookup (line 386), followed
   immediately by the in-memory revoked/expired checks on the snapshot it
   returned (lines 395-403);
2. the `SELECT email FROM users` read (line 407);
3. the rotation `UPDATE` via `revokeRefreshTokenByID` (line 413) — the
   database applies it atomically and reports an affected-row count, which
   the Go code discards;
4. the `INSERT` of the new row (line 423) and the 200 response.

Because the calls are indistinguishable, a system state is abstracted to
the contested row's revoked flag plus the number of calls currently at each
phase; a scheduler step picks a phase and advances one call waiting there. -/

/-- Phases a concurrent Refresh call can occupy (the four numbered steps
above, then the three terminal responses). -/
inductive RacePhase where
  | lookup | readEmail | revokeStep | insertStep
  deriving Repr, DecidableEq

/-- Counter abstraction of N interleaved Refresh calls on one shared row. -/
structure RaceState where
  /-- `revoked_at IS NOT NULL` on the contested row -/
  rowRevoked : Bool
  nLookup : Nat
  nReadEmail : Nat
  nRevokeStep : Nat
  nInsertStep : Nat
  /-- calls that responded 200 -/
  nSuccess : Nat
  /-- calls that responded 401 "refresh token revoked" (line 396) -/
  nFailRevoked : Nat
  /-- calls that responded 401 "refresh token expired" (line 401) -/
  nFailExpired : Nat
  deriving Repr, DecidableEq

/-- The affected-row count the rotation `UPDATE ... WHERE id = ? AND
revoked_at IS NULL` reports when executed against the contested row. -/
def raceRevokeAffected (s : RaceState) : Nat :=
  if s.rowRevoked then 0 else 1

/-- Advance one call waiting at phase `ph` (no-op when no call is there).
`now`/`exp` are the (frozen) clock and the contested row's `expires_at`. -/
def raceStep (now exp : Nat) (s : RaceState) (ph : RacePhase) : RaceState :=
  match ph with
  | .lookup =>
    if s.nLookup = 0 then s
    else if s.rowRevoked then
      -- snapshot has revoked_at set → 401 "refresh token revoked"
      { s with nLookup := s.nLookup - 1, nFailRevoked := s.nFailRevoked + 1 }
    else if now > exp then
      -- expired → best-effort revoke, 401 "refresh token expired"
      { s with nLookup := s.nLookup - 1, rowRevoked := true,
               nFailExpired := s.nFailExpired + 1 }
    else
      { s with nLookup := s.nLookup - 1, nReadEmail := s.nReadEmail + 1 }
  | .readEmail =>
    if s.nReadEmail = 0 then s
    else { s with nReadEmail := s.nReadEmail - 1,
                  nRevokeStep := s.nRevokeStep + 1 }
  | .revokeStep =>
    if s.nRevokeStep = 0 then s
    else
      -- the conditional update runs; its affected count
      -- (`raceRevokeAffected s`) is discarded, and the call proceeds
      { s with nRevokeStep := s.nRevokeStep - 1, rowRevoked := true,
               nInsertStep := s.nInsertStep + 1 }
  | .insertStep =>
    if s.nInsertStep = 0 then s
    else { s with nInsertStep := s.nInsertStep - 1,
                  nSuccess := s.nSuccess + 1 }

/-- Run a schedule (a sequence of phase choices). -/
def raceExec (now exp : Nat) (s : RaceState) (sched : List RacePhase) :
    RaceState :=
  sched.foldl (raceStep now exp) s

/-- Initial state: all N calls are about to run their lookup, against an
active (not yet revoked) contested row. -/
def raceInit (n : Nat) : RaceState :=
  ⟨false, n, 0, 0, 0, 0, 0, 0⟩

/-- Every call has received a response. -/
def raceAllDone (s : RaceState) : Prop :=
  s.nLookup = 0 ∧ s.nReadEmail = 0 ∧ s.nRevokeStep = 0 ∧ s.nInsertStep = 0

instance (s : RaceState) : Decidable (raceAllDone s) := by
  unfold raceAllDone; infer_instance

/-- Inductive invariant of the interleaving model, for a not-yet-expired
contested row: counts are conserved, no call fails as expired, the row is
revoked exactly when some call has executed its rotation update, and a call
can only have observed "revoked" after such an update. -/
def raceInvariant (n : Nat) (s : RaceState) : Prop :=
  s.nLookup + s.nReadEmail + s.nRevokeStep + s.nInsertStep + s.nSuccess +
      s.nFailRevoked + s.nFailExpired = n ∧
  s.nFailExpired = 0 ∧
  (s.rowRevoked = true ↔ 0 < s.nInsertStep + s.nSuccess) ∧
  (0 < s.nFailRevoked → s.rowRevoked = true)

/-- The serial schedule of two calls: the first runs to completion, then the
second performs its lookup. -/
def serialTwoCallSchedule : List RacePhase :=
  [.lookup, .readEmail, .revokeStep, .insertStep, .lookup]

/-! ### Client session coordinator (src/web/src/api/client.ts lines 22-73)

The response interceptor runs under JavaScript's single-threaded
cooperative model.  The modelled scenario is the one the spec quantifies
over: N requests each receive a 401 (none retried before), their handlers
run to their first suspension point in arrival order, then the single
refresh network call settles.

Per the source: a handler that finds `isRefreshing` set pushes a resolver
onto `refreshWaiters` and suspends (lines 52-57); otherwise it sets
`isRefreshing`, issues the network refresh (line 61) and suspends.  When
that call settles, the refresher resumes: on a fulfilled
`refreshTokens()` it calls `notifyRefreshWaiters(token)` (line 62) — every
waiter gets the same `token`, which is `null` exactly when no refresh token
was stored (line 32) — and the `finally` clears the flag; but if
`refreshTokens()` rejects (a network/HTTP error on `/refresh`), the
exception propagates from line 61 before `notifyRefreshWaiters` is ever
reached, so the waiters stay queued forever while `finally` still clears
the flag. -/

/-- How the awaited `refreshTokens()` call settles. -/
inductive RefreshNet where
  /-- fulfilled with a new access token -/
  | success (token : String)
  /-- fulfilled with `null`: `getRefreshToken()` returned nothing (line 32) -/
  | noStoredToken
  /-- rejected: the `/refresh` network call threw -/
  | netError
  deriving Repr, DecidableEq

/-- Final outcome of one intercepted request. -/
inductive ReqOutcome where
  /-- resent once with the new access token attached -/
  | retriedWith (token : String)
  /-- the original unauthorized error was surfaced to the caller -/
  | failedOriginal
  deriving Repr, DecidableEq

/-- Coordinator state: the module-level `isRefreshing` flag and
`refreshWaiters` array, plus (for specification) the number of network
refresh calls issued, which request became the refresher, and the outcomes
delivered so far. -/
structure ClientState where
  isRefreshing : Bool
  refreshWaiters : List Nat
  networkRefreshCalls : Nat
  refresherId : Option Nat
  outcomes : List (Nat × ReqOutcome)
  deriving Repr, DecidableEq

/-- State before any 401 arrives. -/
def clientInit : ClientState := ⟨false, [], 0, none, []⟩

/-- One 401 handler running to its first suspension (lines 45-61).
`alreadyRetried` is the request's `_retry` flag: when set, the error is
rethrown immediately (line 48). -/
def handle401 (s : ClientState) (reqId : Nat) (alreadyRetried : Bool) :
    ClientState :=
  if alreadyRetried then
    { s with outcomes := s.outcomes ++ [(reqId, .failedOriginal)] }
  else if s.isRefreshing then
    { s with refreshWaiters := s.refreshWaiters ++ [reqId] }
  else
    { s with isRefreshing := true,
             networkRefreshCalls := s.networkRefreshCalls + 1,
             refresherId := some reqId }

/-- All N first-time 401 handlers run in arrival order. -/
def run401s (s : ClientState) (reqIds : List Nat) : ClientState :=
  reqIds.foldl (fun st i => handle401 st i false) s

/-- The refresh call settles and the refresher's handler resumes
(lines 61-71). -/
def completeRefresh (s : ClientState) (net : RefreshNet) : ClientState :=
  match net with
  | .success token =>
    -- notifyRefreshWaiters(token); waiters retry with it; refresher
    -- retries; finally clears the flag
    { s with isRefreshing := false, refreshWaiters := [],
             outcomes := s.outcomes ++
               s.refreshWaiters.map (fun w => (w, .retriedWith token)) ++
               (match s.refresherId with
                | some r => [(r, .retriedWith token)]
                | none => []) }
  | .noStoredToken =>
    -- notifyRefreshWaiters(null); each waiter rethrows its original error
    -- (line 54); the refresher clears tokens and rethrows (lines 63-66)
    { s with isRefreshing := false, refreshWaiters := [],
             outcomes := s.outcomes ++
               s.refreshWaiters.map (fun w => (w, .failedOriginal)) ++
               (match s.refresherId with
                | some r => [(r, .failedOriginal)]
                | none => []) }
  | .netError =>
    -- the await at line 61 rejects: notifyRefreshWaiters is never reached,
    -- the waiters stay queued unresolved; finally clears the flag and the
    -- refresher's request fails
    { s with isRefreshing := false,
             outcomes := s.outcomes ++
               (match s.refresherId with
                | some r => [(r, .failedOriginal)]
                | none => []) }

/-- A request has been delivered an outcome. -/
def resolvedOutcome (s : ClientState) (reqId : Nat) : Option ReqOutcome :=
  (s.outcomes.find? (fun p => p.1 == reqId)).map (·.2)

/-! ## Supporting lemmas -/

/-- Dropping a `p`-satisfying block from the front. -/
theorem dropWhile_append_of_all {p : Char → Bool} {w : List Char}
    (l : List Char) (hw : ∀ a ∈ w, p a = true) :
    (w ++ l).dropWhile p = l.dropWhile p := by
  induction w with
  | nil => rfl
  | cons a t ih =>
    rw [List.cons_append, List.dropWhile_cons,
      if_pos (hw a (List.mem_cons_self a t))]
    exact ih fun a ha => hw a (List.mem_cons_of_mem _ ha)

/-- A list of white space trims to nothing. -/
theorem goTrimSpaceList_of_all {l : List Char}
    (hl : ∀ a ∈ l, goIsSpace a = true) : goTrimSpaceList l = [] := by
  unfold goTrimSpaceList
  rw [List.dropWhile_eq_nil_iff.mpr hl]
  rfl

/-- Trailing white space does not change the trim. -/
theorem goTrimSpaceList_append_right {w : List Char} (l : List Char)
    (hw : ∀ a ∈ w, goIsSpace a = true) :
    goTrimSpaceList (l ++ w) = goTrimSpaceList l := by
  unfold goTrimSpaceList
  rw [List.dropWhile_append]
  by_cases h : (l.dropWhile goIsSpace).isEmpty
  · rw [if_pos h]
    rw [List.isEmpty_iff] at h
    rw [h, List.dropWhile_eq_nil_iff.mpr hw]
  · rw [if_neg h]
    rw [List.reverse_append]
    rw [dropWhile_append_of_all _ (fun a ha => hw a (List.mem_reverse.mp ha))]

/-- Leading white space does not change the trim. -/
theorem goTrimSpaceList_append_left {w : List Char} (l : List Char)
    (hw : ∀ a ∈ w, goIsSpace a = true) :
    goTrimSpaceList (w ++ l) = goTrimSpaceList l := by
  unfold goTrimSpaceList
  rw [dropWhile_append_of_all _ hw]

/-- `strings.TrimSpace` ignores surrounding white-space padding. -/
theorem goTrimSpace_pad (w₁ w₂ raw : String)
    (hw₁ : w₁.data.all goIsSpace = true) (hw₂ : w₂.data.all goIsSpace = true) :
    goTrimSpace (w₁ ++ raw ++ w₂) = goTrimSpace raw := by
  unfold goTrimSpace
  rw [String.data_append, String.data_append,
    goTrimSpaceList_append_right _ (List.all_eq_true.mp hw₂),
    goTrimSpaceList_append_left _ (List.all_eq_true.mp hw₁)]

/-- A white-space-only string trims to the empty string. -/
theorem goTrimSpace_of_all {s : String} (hs : s.data.all goIsSpace = true) :
    goTrimSpace s = "" := by
  unfold goTrimSpace
  rw [goTrimSpaceList_of_all (List.all_eq_true.mp hs)]

/-- `find?` commutes with mapping a function that does not change the
predicate's verdict. -/
theorem find?_map_of_pred_comm {α : Type} {f : α → α} {p : α → Bool}
    (hp : ∀ x, p (f x) = p x) {l : List α} {r : α}
    (h : l.find? p = some r) : (l.map f).find? p = some (f r) := by
  induction l with
  | nil => simp at h
  | cons a t ih =>
    rw [List.map_cons]
    by_cases ha : p a = true
    · rw [List.find?_cons_of_pos _ ha] at h
      obtain rfl : a = r := Option.some.inj h
      rw [List.find?_cons_of_pos _ ((hp a).trans ha)]
    · have ha' : p a = false := Bool.eq_false_iff.mpr ha
      rw [List.find?_cons_of_neg _ (by simp [ha'])] at h
      rw [List.find?_cons_of_neg _ (by simp [hp a, ha'])]
      exact ih h

theorem raceStep_preserves_invariant (n now exp : Nat) (hne : ¬ now > exp)
    (s : RaceState) (ph : RacePhase) (hinv : raceInvariant n s) :
    raceInvariant n (raceStep now exp s ph) := by
  obtain ⟨hsum, hexp, hiff, hfail⟩ := hinv
  cases ph <;>
    simp only [raceStep, raceInvariant] <;>
    split_ifs with h1 h2 h3 <;>
    constructor <;>
    try constructor <;> try constructor
  all_goals simp_all
  all_goals omega

theorem raceExec_preserves_invariant (n now exp : Nat) (hne : ¬ now > exp)
    (s : RaceState) (sched : List RacePhase) (hinv : raceInvariant n s) :
    raceInvariant n (raceExec now exp s sched) := by
  induction sched generalizing s with
  | nil => exact hinv
  | cons ph rest ih =>
    exact ih _ (raceStep_preserves_invariant n now exp hne s ph hinv)

theorem raceInit_invariant (n : Nat) : raceInvariant n (raceInit n) := by
  refine ⟨by simp [raceInit], rfl, ?_, ?_⟩ <;> simp [raceInit]

/-- Claim C1, counterexample to the claim as stated: an interleaving of two
Refresh calls on the same active row in which the second call's rotation
update reports affectedCount 0 (`raceRevokeAffected` of the intermediate
state), yet that call still proceeds to store a new row and answer 200 —
the run ends with two successes and no `RefreshTokenRevoked` failure,
instead of failing as the claim requires. -/
theorem refreshRace_zeroAffected_cex :
    raceRevokeAffected (raceExec 0 10 (raceInit 2)
      [.lookup, .lookup, .readEmail, .readEmail, .revokeStep]) = 0 ∧
    0 < (raceExec 0 10 (raceInit 2)
      [.lookup, .lookup, .readEmail, .readEmail, .revokeStep]).nRevokeStep ∧
    raceAllDone (raceExec 0 10 (raceInit 2)
      [.lookup, .lookup, .readEmail, .readEmail, .revokeStep, .revokeStep,
       .insertStep, .insertStep]) ∧
    (raceExec 0 10 (raceInit 2)
      [.lookup, .lookup, .readEmail, .readEmail, .revokeStep, .revokeStep,
       .insertStep, .insertStep]).nSuccess = 2 ∧
    (raceExec 0 10 (raceInit 2)
      [.lookup, .lookup, .readEmail, .readEmail, .revokeStep, .revokeStep,
       .insertStep, .insertStep]).nFailRevoked = 0 := by
  decide

/-- Claim C1 (amended): after the presented token's row is found active, the
rotation step revokes the old row via the conditional update, but
`revokeRefreshTokenByID` discards the affected-row count; even when the
update affects 0 rows (a concurrent rotation already won), Refresh proceeds
to generate and store a new refresh token row and does not fail with
`RefreshTokenRevoked`. -/
theorem refreshRace_lostRaceProceeds (now exp : Nat) (s : RaceState)
    (hrev : s.rowRevoked = true) (hat : 0 < s.nRevokeStep) :
    raceRevokeAffected s = 0 ∧
    (raceStep now exp s .revokeStep).nInsertStep = s.nInsertStep + 1 ∧
    (raceStep now exp s .revokeStep).nFailRevoked = s.nFailRevoked ∧
    (raceStep now exp s .revokeStep).nFailExpired = s.nFailExpired := by
  have h0 : ¬ s.nRevokeStep = 0 := by omega
  unfold raceRevokeAffected raceStep
  rw [if_pos hrev, if_neg h0]
  exact ⟨rfl, rfl, rfl, rfl⟩

/-- Witness for `refreshRace_lostRaceProceeds` at the concrete lost-race
state of the counterexample schedule. -/
theorem refreshRace_lostRaceProceeds_witness :
    raceRevokeAffected (raceExec 0 10 (raceInit 2)
      [.lookup, .lookup, .readEmail, .readEmail, .revokeStep]) = 0 ∧
    (raceStep 0 10 (raceExec 0 10 (raceInit 2)
      [.lookup, .lookup, .readEmail, .readEmail, .revokeStep])
        .revokeStep).nInsertStep =
      (raceExec 0 10 (raceInit 2)
        [.lookup, .lookup, .readEmail, .readEmail, .revokeStep]).nInsertStep
        + 1 ∧
    (raceStep 0 10 (raceExec 0 10 (raceInit 2)
      [.lookup, .lookup, .readEmail, .readEmail, .revokeStep])
        .revokeStep).nFailRevoked =
      (raceExec 0 10 (raceInit 2)
        [.lookup, .lookup, .readEmail, .readEmail, .revokeStep]).nFailRevoked
        ∧
    (raceStep 0 10 (raceExec 0 10 (raceInit 2)
      [.lookup, .lookup, .readEmail, .readEmail, .revokeStep])
        .revokeStep).nFailExpired =
      (raceExec 0 10 (raceInit 2)
        [.lookup, .lookup, .readEmail, .readEmail, .revokeStep]).nFailExpired
        :=
  refreshRace_lostRaceProceeds 0 10 _ (by decide) (by decide)

/-- Claim C2, counterexample to the claim as stated: an interleaving of two
concurrent Refresh calls presenting the identical plaintext in which both
calls succeed (their lookups both precede the first rotation update), so it
is not the case that exactly one succeeds and the other fails with
`RefreshTokenRevoked`. -/
theorem refreshRace_doubleSuccess_cex :
    raceAllDone (raceExec 0 10 (raceInit 2)
      [.lookup, .readEmail, .lookup, .readEmail, .revokeStep, .revokeStep,
       .insertStep, .insertStep]) ∧
    (raceExec 0 10 (raceInit 2)
      [.lookup, .readEmail, .lookup, .readEmail, .revokeStep, .revokeStep,
       .insertStep, .insertStep]).nSuccess = 2 ∧
    (raceExec 0 10 (raceInit 2)
      [.lookup, .readEmail, .lookup, .readEmail, .revokeStep, .revokeStep,
       .insertStep, .insertStep]).nFailRevoked = 0 := by
  decide

/-- Claim C2 (amended): for every interleaving of N ≥ 1 concurrent Refresh
calls presenting the identical (active, unexpired) token in which every
call completes, at least one call succeeds and every non-successful call
fails with `RefreshTokenRevoked` — all-failure runs are impossible, but
because the rotation update's affected-row count is never checked,
interleavings with more than one success exist. -/
theorem refreshRace_atLeastOneSuccess (n now exp : Nat)
    (sched : List RacePhase) (hn : 1 ≤ n) (hexp : now ≤ exp)
    (hdone : raceAllDone (raceExec now exp (raceInit n) sched)) :
    1 ≤ (raceExec now exp (raceInit n) sched).nSuccess ∧
    (raceExec now exp (raceInit n) sched).nSuccess +
      (raceExec now exp (raceInit n) sched).nFailRevoked = n := by
  obtain ⟨hsum, hfe, hiff, hfail⟩ :=
    raceExec_preserves_invariant n now exp (by omega) (raceInit n) sched
      (raceInit_invariant n)
  obtain ⟨h1, h2, h3, h4⟩ := hdone
  constructor
  · by_contra hns
    have hs0 : (raceExec now exp (raceInit n) sched).nSuccess = 0 := by
      omega
    have hrf : (raceExec now exp (raceInit n) sched).rowRevoked = false := by
      cases hsr : (raceExec now exp (raceInit n) sched).rowRevoked
      · rfl
      · have := hiff.mp hsr
        omega
    have hf0 : (raceExec now exp (raceInit n) sched).nFailRevoked = 0 := by
      by_contra hf
      have := hfail (by omega)
      rw [hrf] at this
      exact Bool.false_ne_true this
    omega
  · omega

/-- Witness for `refreshRace_atLeastOneSuccess`: the serial schedule of two
calls, where the first succeeds and the second fails revoked. -/
theorem refreshRace_atLeastOneSuccess_witness :
    1 ≤ (raceExec 0 10 (raceInit 2) serialTwoCallSchedule).nSuccess ∧
    (raceExec 0 10 (raceInit 2) serialTwoCallSchedule).nSuccess +
      (raceExec 0 10 (raceInit 2) serialTwoCallSchedule).nFailRevoked = 2 :=
  refreshRace_atLeastOneSuccess 2 0 10 serialTwoCallSchedule
    (by decide) (by decide) (by decide)

/-- Unfolding one 401 arrival. -/
theorem run401s_cons (s : ClientState) (i : Nat) (l : List Nat) :
    run401s s (i :: l) = run401s (handle401 s i false) l := rfl

/-- Once the in-progress flag is set, further first-time 401 handlers only
enqueue waiters (client.ts lines 52-53): no field other than
`refreshWaiters` changes. -/
theorem run401s_of_refreshing (l : List Nat) (s : ClientState)
    (h : s.isRefreshing = true) :
    run401s s l = { s with refreshWaiters := s.refreshWaiters ++ l } := by
  induction l generalizing s with
  | nil => simp [run401s]
  | cons i t ih =>
    have h1 : handle401 s i false =
        { s with refreshWaiters := s.refreshWaiters ++ [i] } := by
      simp [handle401, h]
    rw [run401s_cons, h1,
      ih { s with refreshWaiters := s.refreshWaiters ++ [i] } h]
    simp

/-- In a list of outcome entries all carrying the same outcome, looking up
any present request id yields that outcome. -/
theorem find?_outcome_of_const {o : ReqOutcome} :
    ∀ (l : List (Nat × ReqOutcome)) (w : Nat),
      (∀ e ∈ l, e.2 = o) → w ∈ l.map Prod.fst →
      (l.find? (fun p => p.1 == w)).map Prod.snd = some o := by
  intro l
  induction l with
  | nil => intro w _ hw; simp at hw
  | cons e t ih =>
    intro w ho hw
    by_cases he : e.1 = w
    · rw [List.find?_cons_of_pos _ (by simp [he])]
      simp [ho e (List.mem_cons_self e t)]
    · rw [List.find?_cons_of_neg _ (by simp [he])]
      refine ih w (fun x hx => ho x (List.mem_cons_of_mem _ hx)) ?_
      rw [List.map_cons] at hw
      rcases List.mem_cons.mp hw with h | h
      · exact absurd h.symm he
      · exact h

/-- Claim C3 (amended): with N ≥ 1 concurrent 401s on first-time requests,
exactly one network refresh call is issued and all later handlers enqueue
waiters; when `refreshTokens()` returns (a new token, or null because no
refresh token was stored) every queued waiter is resolved with that same
outcome and the flag is cleared; but when the refresh call throws, the flag
is cleared while the queued waiters are never resolved. -/
theorem clientRefresh_singleFlight (i : Nat) (rest : List Nat) (tok : String)
    (hni : i ∉ rest) :
    (run401s clientInit (i :: rest)).networkRefreshCalls = 1 ∧
    (run401s clientInit (i :: rest)).isRefreshing = true ∧
    (run401s clientInit (i :: rest)).refreshWaiters = rest ∧
    (run401s clientInit (i :: rest)).refresherId = some i ∧
    (completeRefresh (run401s clientInit (i :: rest))
      (.success tok)).isRefreshing = false ∧
    (completeRefresh (run401s clientInit (i :: rest))
      (.success tok)).refreshWaiters = [] ∧
    (∀ w ∈ i :: rest,
      resolvedOutcome (completeRefresh (run401s clientInit (i :: rest))
        (.success tok)) w = some (.retriedWith tok)) ∧
    (completeRefresh (run401s clientInit (i :: rest))
      .noStoredToken).isRefreshing = false ∧
    (completeRefresh (run401s clientInit (i :: rest))
      .noStoredToken).refreshWaiters = [] ∧
    (∀ w ∈ i :: rest,
      resolvedOutcome (completeRefresh (run401s clientInit (i :: rest))
        .noStoredToken) w = some .failedOriginal) ∧
    (completeRefresh (run401s clientInit (i :: rest))
      .netError).isRefreshing = false ∧
    (completeRefresh (run401s clientInit (i :: rest))
      .netError).refreshWaiters = rest ∧
    (∀ w ∈ rest,
      resolvedOutcome (completeRefresh (run401s clientInit (i :: rest))
        .netError) w = none) := by
  have h1 : handle401 clientInit i false =
      ⟨true, [], 1, some i, []⟩ := by
    simp [handle401, clientInit]
  have hs : run401s clientInit (i :: rest) =
      ⟨true, rest, 1, some i, []⟩ := by
    rw [run401s_cons, h1, run401s_of_refreshing _ _ rfl]
    simp
  rw [hs]
  refine ⟨rfl, rfl, rfl, rfl, rfl, rfl, ?_, rfl, rfl, ?_, rfl, rfl, ?_⟩
  · intro w hw
    unfold resolvedOutcome completeRefresh
    refine find?_outcome_of_const _ w ?_ ?_
    · intro e he
      simp only [List.nil_append] at he
      rcases List.mem_append.mp he with h | h
      · obtain ⟨x, _, rfl⟩ := List.mem_map.mp h
        rfl
      · rcases List.mem_singleton.mp h with rfl
        rfl
    · simp only [List.nil_append, List.map_append, List.map_map,
        List.map_singleton]
      rcases List.mem_cons.mp hw with rfl | h
      · exact List.mem_append.mpr (Or.inr (by simp))
      · refine List.mem_append.mpr (Or.inl ?_)
        simpa using h
  · intro w hw
    unfold resolvedOutcome completeRefresh
    refine find?_outcome_of_const _ w ?_ ?_
    · intro e he
      simp only [List.nil_append] at he
      rcases List.mem_append.mp he with h | h
      · obtain ⟨x, _, rfl⟩ := List.mem_map.mp h
        rfl
      · rcases List.mem_singleton.mp h with rfl
        rfl
    · simp only [List.nil_append, List.map_append, List.map_map,
        List.map_singleton]
      rcases List.mem_cons.mp hw with rfl | h
      · exact List.mem_append.mpr (Or.inr (by simp))
      · refine List.mem_append.mpr (Or.inl ?_)
        simpa using h
  · intro w hw
    have hne : (i == w) = false := by
      simp only [beq_eq_false_iff_ne, ne_eq]
      intro hiw
      exact hni (hiw ▸ hw)
    unfold resolvedOutcome completeRefresh
    simp [hne]

/-- Witness for `clientRefresh_singleFlight` at two concrete requests: the
single-network-call conjunct. -/
theorem clientRefresh_singleFlight_witness :
    (run401s clientInit (1 :: [2])).networkRefreshCalls = 1 :=
  (clientRefresh_singleFlight 1 [2] "tok" (by decide)).1

/-- Claim C3, counterexample to the claim as stated: two concurrent 401s,
one refresh network call which completes by throwing (for example the
server answered 500 on `/refresh`).  The claim says every queued waiter is
then resolved with the shared outcome; in fact request 2's waiter is never
resolved — it stays queued — even though the in-progress flag is cleared. -/
theorem clientRefresh_unresolvedWaiter_cex :
    (run401s clientInit [1, 2]).networkRefreshCalls = 1 ∧
    (completeRefresh (run401s clientInit [1, 2]) .netError).isRefreshing =
      false ∧
    (completeRefresh (run401s clientInit [1, 2]) .netError).refreshWaiters =
      [2] ∧
    resolvedOutcome (completeRefresh (run401s clientInit [1, 2]) .netError) 2
      = none := by
  decide

/-- The rotation update never changes a row's `token_hash`. -/
theorem revokeRowIfActiveById_tokenHash (id now : Nat)
    (r : RefreshTokenRow) :
    (revokeRowIfActiveById id now r).tokenHash = r.tokenHash := by
  unfold revokeRowIfActiveById
  split <;> rfl

/-- After the rotation of row `r`, looking the same hash up again finds the
row marked revoked (the appended fresh row has a different hash). -/
theorem lookupAfterRotation (hashFn : String → String) (db : DB)
    (now ttl : Nat) (t p : String) (r : RefreshTokenRow)
    (hlook : lookupRefreshTokenByHash db (hashFn t) = some r)
    (hact : r.revokedAt = none) :
    lookupRefreshTokenByHash
      (insertRefreshToken (revokeRefreshTokenByID db r.id now).1 r.userId
        (hashFn p) (now + ttl)) (hashFn t) =
      some { r with revokedAt := some now } := by
  unfold lookupRefreshTokenByHash at *
  unfold insertRefreshToken revokeRefreshTokenByID
  simp only [List.find?_append]
  have hmap :
      ((db.refreshTokens.map (revokeRowIfActiveById r.id now)).find?
        (fun x => x.tokenHash == hashFn t)) =
      some (revokeRowIfActiveById r.id now r) :=
    find?_map_of_pred_comm
      (fun x => by rw [revokeRowIfActiveById_tokenHash]) hlook
  rw [hmap]
  have hupd : revokeRowIfActiveById r.id now r =
      { r with revokedAt := some now } := by
    unfold revokeRowIfActiveById
    rw [if_pos ⟨rfl, hact⟩]
  rw [hupd]
  rfl

/-- Claim C4: for a refresh token plaintext whose hash resolves to an
active, unexpired ledger row of an existing user (the state Login and
Refresh leave a just-issued token in), calling Refresh with it twice
sequentially makes the first call succeed with a new access/refresh pair and
the second call fail with `RefreshTokenRevoked`: replaying an
already-rotated refresh token always fails. -/
theorem refresh_twice_rotation (hashFn : String → String)
    (jwtIssuer : String) (ttl : Nat) (db : DB) (now₁ now₂ : Nat)
    (t p p₂ : String) (r : RefreshTokenRow) (u : UserRow)
    (htrim : goTrimSpace t = t) (hne : t ≠ "")
    (hlook : lookupRefreshTokenByHash db (hashFn t) = some r)
    (hact : r.revokedAt = none) (hexp : now₁ ≤ r.expiresAt)
    (huser : lookupUserById db r.userId = some u)
    (_hfresh : hashFn p ≠ hashFn t) :
    (refreshHandler hashFn jwtIssuer ttl db now₁ t p).2 =
      .success (generateToken jwtIssuer r.userId u.email now₁) p ∧
    (refreshHandler hashFn jwtIssuer ttl
      (refreshHandler hashFn jwtIssuer ttl db now₁ t p).1 now₂ t p₂).2 =
      .revoked := by
  have hng : ¬ now₁ > r.expiresAt := by omega
  have h1 : refreshHandler hashFn jwtIssuer ttl db now₁ t p =
      (insertRefreshToken (revokeRefreshTokenByID db r.id now₁).1 r.userId
        (hashFn p) (now₁ + ttl),
       .success (generateToken jwtIssuer r.userId u.email now₁) p) := by
    unfold refreshHandler
    rw [htrim]
    simp [hne, hlook, hact, huser, hng]
  refine ⟨by rw [h1], ?_⟩
  rw [h1]
  have h2 := lookupAfterRotation hashFn db now₁ ttl t p r hlook hact
  unfold refreshHandler
  rw [htrim]
  simp [hne, h2]

/-- Witness for `refresh_twice_rotation` on a one-user, one-token store
(with the hash function instantiated to the identity). -/
theorem refresh_twice_rotation_witness :
    (refreshHandler (fun s => s) "bookrec" 3600
      ⟨[⟨1, "a@x.test", "hash1"⟩], [⟨1, 1, "t0", 100, none⟩], 2⟩
      0 "t0" "t1").2 =
      .success (generateToken "bookrec" 1 "a@x.test" 0) "t1" ∧
    (refreshHandler (fun s => s) "bookrec" 3600
      (refreshHandler (fun s => s) "bookrec" 3600
        ⟨[⟨1, "a@x.test", "hash1"⟩], [⟨1, 1, "t0", 100, none⟩], 2⟩
        0 "t0" "t1").1 5 "t0" "t2").2 = .revoked :=
  refresh_twice_rotation (fun s => s) "bookrec" 3600
    ⟨[⟨1, "a@x.test", "hash1"⟩], [⟨1, 1, "t0", 100, none⟩], 2⟩
    0 5 "t0" "t1" "t2" ⟨1, 1, "t0", 100, none⟩ ⟨1, "a@x.test", "hash1"⟩
    (by decide) (by decide) (by decide) (by decide) (by decide) (by decide)
    (by decide)

/-- The revoke-all update never changes a row's `token_hash`. -/
theorem revokeRowIfActiveByUser_tokenHash (userId now : Nat)
    (r : RefreshTokenRow) :
    (revokeRowIfActiveByUser userId now r).tokenHash = r.tokenHash := by
  unfold revokeRowIfActiveByUser
  split <;> rfl

/-- The revoke-all update leaves every row of the targeted user with
`revoked_at` set. -/
theorem revokeRowIfActiveByUser_isSome (userId now : Nat)
    (r : RefreshTokenRow) (hr : r.userId = userId) :
    (revokeRowIfActiveByUser userId now r).revokedAt.isSome = true := by
  unfold revokeRowIfActiveByUser
  by_cases ha : r.revokedAt = none
  · rw [if_pos ⟨hr, ha⟩]
    rfl
  · rw [if_neg (fun hc => ha hc.2)]
    exact Option.isSome_iff_ne_none.mpr ha

/-- After revoke-all, a hash lookup finds the same row, transformed. -/
theorem lookupAfterRevokeAll (hashFn : String → String) (db : DB)
    (userId now : Nat) (t : String) (r : RefreshTokenRow)
    (hlook : lookupRefreshTokenByHash db (hashFn t) = some r) :
    lookupRefreshTokenByHash (revokeAllRefreshTokensForUser db userId now).1
      (hashFn t) = some (revokeRowIfActiveByUser userId now r) := by
  unfold lookupRefreshTokenByHash at *
  unfold revokeAllRefreshTokensForUser
  exact find?_map_of_pred_comm
    (fun x => by rw [revokeRowIfActiveByUser_tokenHash]) hlook

/-- Claim C5: LogoutAll, given a valid Bearer access token, revokes every
refresh token of the authenticated user and returns a confirmation message
regardless of how many rows were affected; it fails with 401 on a missing
or invalid access token; and afterwards every refresh token previously
issued to that user fails a subsequent Refresh with the revoked error. -/
theorem logoutAll_revokes_user_sessions (hashFn : String → String)
    (jwtIssuer : String) (ttl : Nat) (db : DB) (now : Nat)
    (tok : PresentedToken) (halg : keyfuncAcceptsAlg tok.alg = true)
    (hsig : tok.sigValid = true) (hexp : now < tok.expiresAt) :
    (∀ (dba : DB) (nowa : Nat),
      logoutAllHandler dba nowa none = (dba, .unauthorized)) ∧
    (∀ (dba : DB) (nowa : Nat) (bad : PresentedToken),
      authMiddleware (some bad) nowa = .invalidToken →
      logoutAllHandler dba nowa (some bad) = (dba, .unauthorized)) ∧
    (logoutAllHandler db now (some tok)).2 =
      .success "Logged out of all sessions" ∧
    (∀ r ∈ (logoutAllHandler db now (some tok)).1.refreshTokens,
      r.userId = tok.userId → r.revokedAt.isSome = true) ∧
    (∀ (t p : String) (now₂ : Nat) (r : RefreshTokenRow),
      goTrimSpace t = t → t ≠ "" →
      lookupRefreshTokenByHash db (hashFn t) = some r →
      r.userId = tok.userId →
      (refreshHandler hashFn jwtIssuer ttl
        (logoutAllHandler db now (some tok)).1 now₂ t p).2 = .revoked) := by
  have hmw : authMiddleware (some tok) now = .proceed tok.userId tok.email := by
    unfold authMiddleware
    simp [halg, hsig, hexp]
  have hrun : logoutAllHandler db now (some tok) =
      ((revokeAllRefreshTokensForUser db tok.userId now).1,
       .success "Logged out of all sessions") := by
    unfold logoutAllHandler
    rw [hmw]
  refine ⟨fun dba nowa => rfl, ?_, ?_, ?_, ?_⟩
  · intro dba nowa bad hbad
    unfold logoutAllHandler
    rw [hbad]
  · rw [hrun]
  · rw [hrun]
    intro r hr hru
    unfold revokeAllRefreshTokensForUser at hr
    simp only [List.mem_map] at hr
    obtain ⟨x, _, rfl⟩ := hr
    have hxu : x.userId = tok.userId := by
      by_cases hx : x.userId = tok.userId ∧ x.revokedAt = none
      · exact hx.1
      · unfold revokeRowIfActiveByUser at hru
        rw [if_neg hx] at hru
        exact hru
    exact revokeRowIfActiveByUser_isSome tok.userId now x hxu
  · intro t p now₂ r htrim hne hlook hru
    rw [hrun]
    have h2 := lookupAfterRevokeAll hashFn db tok.userId now t r hlook
    have h3 : (revokeRowIfActiveByUser tok.userId now r).revokedAt.isSome =
        true := revokeRowIfActiveByUser_isSome tok.userId now r hru
    unfold refreshHandler
    rw [htrim]
    simp [hne, h2, h3]

/-- Witness for `logoutAll_revokes_user_sessions`: the confirmation-message
conjunct at a concrete store and a concrete valid bearer token. -/
theorem logoutAll_revokes_user_sessions_witness :
    (logoutAllHandler ⟨[⟨1, "a@x.test", "hash1"⟩], [⟨1, 1, "t0", 100, none⟩], 2⟩
      0 (some ⟨.hs256, 1, "a@x.test", 100, true⟩)).2 =
      .success "Logged out of all sessions" :=
  (logoutAll_revokes_user_sessions (fun s => s) "bookrec" 3600
    ⟨[⟨1, "a@x.test", "hash1"⟩], [⟨1, 1, "t0", 100, none⟩], 2⟩ 0
    ⟨.hs256, 1, "a@x.test", 100, true⟩
    (by decide) (by decide) (by decide)).2.2.1

/-- Claim C6, counterexample to the claim as stated: at a concrete store
with no user row for the submitted email, `LoginHandler` answers
`invalidCredentials`, and its operation trace contains no bcrypt comparison
— the lookup-failure branch (part_001 lines 330-333) returns 401
immediately, with no dummy hash comparison. -/
theorem login_noDummyBcrypt_cex :
    (loginHandler (fun s => s) (fun h p => h == p) "bookrec" 3600
      ⟨[], [], 1⟩ 0 "a@x.test" "pw" "p0").2.1 = .invalidCredentials ∧
    LoginOp.bcryptCompare ∉
      (loginHandler (fun s => s) (fun h p => h == p) "bookrec" 3600
        ⟨[], [], 1⟩ 0 "a@x.test" "pw" "p0").2.2 := by
  decide

/-- Claim C6 (amended): credential verification during Login executes the
bcrypt comparison only on the found branch; when no user row exists for the
submitted email, Login returns `InvalidCredentials` directly after the
lookup, with no hash comparison — so the sequence of operations differs
between the found and not-found branches. -/
theorem login_bcrypt_branches (hashFn : String → String)
    (bcryptOk : String → String → Bool) (jwtIssuer : String) (ttl : Nat)
    (db : DB) (now : Nat) (rawEmail password freshPlain : String)
    (hne : goTrimSpace rawEmail ≠ "") (hpw : password ≠ "") :
    (lookupUserByEmail db (goTrimSpace rawEmail) = none →
      loginHandler hashFn bcryptOk jwtIssuer ttl db now rawEmail password
        freshPlain = (db, .invalidCredentials, [.dbLookupUser])) ∧
    (∀ u : UserRow, lookupUserByEmail db (goTrimSpace rawEmail) = some u →
      LoginOp.bcryptCompare ∈
        (loginHandler hashFn bcryptOk jwtIssuer ttl db now rawEmail password
          freshPlain).2.2) := by
  constructor
  · intro hnone
    unfold loginHandler
    simp [hne, hpw, hnone]
  · intro u hsome
    unfold loginHandler
    by_cases hb : bcryptOk u.passwordHash password = false <;>
      simp [hne, hpw, hsome, hb]

/-- Witness for `login_bcrypt_branches`: the not-found branch at a concrete
empty store. -/
theorem login_bcrypt_branches_witness :
    loginHandler (fun s => s) (fun h p => h == p) "bookrec" 3600
      ⟨[], [], 1⟩ 0 "a@x.test" "pw" "p0" =
      (⟨[], [], 1⟩, .invalidCredentials, [.dbLookupUser]) :=
  (login_bcrypt_branches (fun s => s) (fun h p => h == p) "bookrec" 3600
    ⟨[], [], 1⟩ 0 "a@x.test" "pw" "p0" (by decide) (by decide)).1 (by decide)

/-- Claim C7: for all valid credentials, Login succeeds and returns an
access token issued at `now` expiring at `now + 24h`, plus a refresh token
plaintext whose hash is exactly the `token_hash` persisted in the new
ledger row, whose expiry is `now +` the configured refresh TTL — 30 days by
default, overridable by `REFRESH_TOKEN_TTL_HOURS`. -/
theorem login_token_issuance (hashFn : String → String)
    (bcryptOk : String → String → Bool) (jwtIssuer : String)
    (envHours : Option Int) (db : DB) (now : Nat)
    (email password freshPlain : String) (u : UserRow)
    (htrim : goTrimSpace email = email) (hne : email ≠ "")
    (hpw : password ≠ "")
    (hfind : lookupUserByEmail db email = some u)
    (hok : bcryptOk u.passwordHash password = true) :
    loginHandler hashFn bcryptOk jwtIssuer
        (effectiveRefreshTokenTTL envHours) db now email password freshPlain =
      (insertRefreshToken db u.id (hashFn freshPlain)
        (now + effectiveRefreshTokenTTL envHours),
       .success (generateToken jwtIssuer u.id email now) freshPlain u.id
         email,
       [.dbLookupUser, .bcryptCompare, .issueAccess, .generateRefresh,
        .storeRefresh]) ∧
    (generateToken jwtIssuer u.id email now).issuedAt = now ∧
    (generateToken jwtIssuer u.id email now).expiresAt = now + 24 * 3600 ∧
    (insertRefreshToken db u.id (hashFn freshPlain)
        (now + effectiveRefreshTokenTTL envHours)).refreshTokens =
      db.refreshTokens ++
        [⟨db.nextTokenId, u.id, hashFn freshPlain,
          now + effectiveRefreshTokenTTL envHours, none⟩] ∧
    effectiveRefreshTokenTTL none = 30 * 24 * 3600 ∧
    (∀ h : Int, 0 < h → effectiveRefreshTokenTTL (some h) =
      h.toNat * 3600) := by
  refine ⟨?_, rfl, rfl, rfl, rfl, ?_⟩
  · unfold loginHandler
    rw [htrim]
    simp [hne, hpw, hfind, hok]
  · intro h hh
    simp [effectiveRefreshTokenTTL, hh]

/-- Witness for `login_token_issuance`: a concrete one-user store with the
default TTL configuration. -/
theorem login_token_issuance_witness :
    loginHandler (fun s => s) (fun h p => h == p) "bookrec"
      (effectiveRefreshTokenTTL none)
      ⟨[⟨1, "a@x.test", "pw"⟩], [], 5⟩ 0 "a@x.test" "pw" "p0" =
      (insertRefreshToken ⟨[⟨1, "a@x.test", "pw"⟩], [], 5⟩ 1 "p0"
        (0 + effectiveRefreshTokenTTL none),
       .success (generateToken "bookrec" 1 "a@x.test" 0) "p0" 1 "a@x.test",
       [.dbLookupUser, .bcryptCompare, .issueAccess, .generateRefresh,
        .storeRefresh]) :=
  (login_token_issuance (fun s => s) (fun h p => h == p) "bookrec" none
    ⟨[⟨1, "a@x.test", "pw"⟩], [], 5⟩ 0 "a@x.test" "pw" "p0"
    ⟨1, "a@x.test", "pw"⟩ (by decide) (by decide) (by decide) (by decide)
    (by decide)).1

/-- Claim C8, counterexample to the claim as stated: access tokens are
issued under HS256, yet a presented token whose header claims HS384 — a
different algorithm than the issued one — with a MAC valid under the shared
secret is accepted by `AuthMiddleware` rather than rejected with 401,
because the keyfunc only checks membership in the HMAC family. -/
theorem authMiddleware_acceptsHs384_cex :
    issuedTokenAlg = .hs256 ∧
    JwtAlg.hs384 ≠ issuedTokenAlg ∧
    authMiddleware (some ⟨.hs384, 7, "a@x.test", 100, true⟩) 0 =
      .proceed 7 "a@x.test" := by
  decide

/-- Claim C8 (amended): access-token verification pins the HMAC family of
signing algorithms: every token whose header claims a non-HMAC algorithm
(RS256, ES256, none) is rejected with 401; tokens claiming any HMAC
variant (HS256, HS384, HS512) are the only ones the keyfunc accepts. -/
theorem authMiddleware_pins_hmac_family (tok : PresentedToken) (now : Nat)
    (hbad : keyfuncAcceptsAlg tok.alg = false) :
    authMiddleware (some tok) now = .invalidToken ∧
    (∀ a : JwtAlg, keyfuncAcceptsAlg a = true ↔
      (a = .hs256 ∨ a = .hs384 ∨ a = .hs512)) := by
  constructor
  · unfold authMiddleware
    simp [hbad]
  · intro a
    cases a <;> simp [keyfuncAcceptsAlg]

/-- Witness for `authMiddleware_pins_hmac_family` at a concrete RS256
token. -/
theorem authMiddleware_pins_hmac_family_witness :
    authMiddleware (some ⟨.rs256, 7, "a@x.test", 100, true⟩) 0 =
      .invalidToken :=
  (authMiddleware_pins_hmac_family ⟨.rs256, 7, "a@x.test", 100, true⟩ 0
    (by decide)).1

/-- The logout update never changes a row's `token_hash`. -/
theorem revokeRowIfActiveByHash_tokenHash (tokenHash : String) (now : Nat)
    (r : RefreshTokenRow) :
    (revokeRowIfActiveByHash tokenHash now r).tokenHash = r.tokenHash := by
  unfold revokeRowIfActiveByHash
  split <;> rfl

/-- After the logout update, every row carrying the targeted hash has
`revoked_at` set. -/
theorem revokeRowIfActiveByHash_isSome (tokenHash : String) (now : Nat)
    (r : RefreshTokenRow) (hr : r.tokenHash = tokenHash) :
    (revokeRowIfActiveByHash tokenHash now r).revokedAt.isSome = true := by
  unfold revokeRowIfActiveByHash
  by_cases ha : r.revokedAt = none
  · rw [if_pos ⟨hr, ha⟩]
    rfl
  · rw [if_neg (fun hc => ha hc.2)]
    exact Option.isSome_iff_ne_none.mpr ha

/-- After the logout update ran once, no row with the targeted hash is
still active. -/
theorem activeRowsWithHash_after_revoke (db : DB) (tokenHash : String)
    (now : Nat) :
    activeRowsWithHash
      ⟨db.users, db.refreshTokens.map (revokeRowIfActiveByHash tokenHash now),
       db.nextTokenId⟩ tokenHash = 0 := by
  unfold activeRowsWithHash
  have hall : ∀ x : RefreshTokenRow,
      (((revokeRowIfActiveByHash tokenHash now x).tokenHash == tokenHash) &&
        ((revokeRowIfActiveByHash tokenHash now x).revokedAt == none)) =
        false := by
    intro x
    by_cases hx : x.tokenHash = tokenHash
    · have := revokeRowIfActiveByHash_isSome tokenHash now x hx
      rcases hs : (revokeRowIfActiveByHash tokenHash now x).revokedAt with
        _ | v
      · rw [hs] at this
        simp at this
      · simp [hs]
    · have hth := revokeRowIfActiveByHash_tokenHash tokenHash now x
      rw [Bool.and_eq_false_iff]
      left
      rw [hth]
      simpa using hx
  induction db.refreshTokens with
  | nil => rfl
  | cons a t ih =>
    simpa [List.filter_cons, hall a] using ih

/-- Claim C9: Logout hashes the (trimmed, non-empty) submitted refresh
token and conditionally revokes the matching rows; when no active row
matches (affectedCount = 0) it fails with `InvalidRefreshToken`, otherwise
it returns the "Logged out" confirmation, after which every row with that
hash is revoked and a second Logout on the same token fails with
`InvalidRefreshToken` — the Active → Revoked transition is one-way and a
repeated revoke is distinguishable from the first. -/
theorem logout_conditional_revocation (hashFn : String → String) (db : DB)
    (now now₂ : Nat) (raw : String) (hne : goTrimSpace raw ≠ "") :
    (activeRowsWithHash db (hashFn (goTrimSpace raw)) = 0 →
      (logoutHandler hashFn db now raw).2 = .invalidToken) ∧
    (0 < activeRowsWithHash db (hashFn (goTrimSpace raw)) →
      (logoutHandler hashFn db now raw).2 = .success "Logged out" ∧
      (∀ r ∈ (logoutHandler hashFn db now raw).1.refreshTokens,
        r.tokenHash = hashFn (goTrimSpace raw) →
        r.revokedAt.isSome = true) ∧
      (logoutHandler hashFn (logoutHandler hashFn db now raw).1 now₂
        raw).2 = .invalidToken) := by
  constructor
  · intro h0
    unfold logoutHandler
    simp [hne, h0]
  · intro haff
    have hnz : ¬ activeRowsWithHash db (hashFn (goTrimSpace raw)) = 0 := by
      omega
    have hdb1 : (logoutHandler hashFn db now raw).1 =
        ⟨db.users,
         db.refreshTokens.map
           (revokeRowIfActiveByHash (hashFn (goTrimSpace raw)) now),
         db.nextTokenId⟩ := by
      unfold logoutHandler
      simp [hne, hnz]
    refine ⟨?_, ?_, ?_⟩
    · unfold logoutHandler
      simp [hne, hnz]
    · rw [hdb1]
      intro r hr hrh
      simp only [List.mem_map] at hr
      obtain ⟨x, _, rfl⟩ := hr
      have hx : x.tokenHash = hashFn (goTrimSpace raw) := by
        rw [← revokeRowIfActiveByHash_tokenHash (hashFn (goTrimSpace raw))
          now x]
        exact hrh
      exact revokeRowIfActiveByHash_isSome _ now x hx
    · rw [hdb1]
      have h0 := activeRowsWithHash_after_revoke db
        (hashFn (goTrimSpace raw)) now
      unfold logoutHandler
      simp [hne, h0]

/-- Witness for `logout_conditional_revocation`: the success conjunct on a
one-token store. -/
theorem logout_conditional_revocation_witness :
    (logoutHandler (fun s => s)
      ⟨[⟨1, "a@x.test", "pw"⟩], [⟨1, 1, "t0", 100, none⟩], 2⟩ 7 "t0").2 =
      .success "Logged out" :=
  ((logout_conditional_revocation (fun s => s)
    ⟨[⟨1, "a@x.test", "pw"⟩], [⟨1, 1, "t0", 100, none⟩], 2⟩ 7 9 "t0"
    (by decide)).2 (by decide)).1

/-- Claim C10: Refresh and Logout trim surrounding white space from the
submitted `refresh_token` before hashing — calling either with a padded
token behaves identically to calling it with the unpadded token — and an
input consisting only of white space is treated as a missing field
(400). -/
theorem refresh_logout_trim_padding (hashFn : String → String)
    (jwtIssuer : String) (ttl : Nat) (db : DB) (now : Nat)
    (w₁ w₂ raw freshPlain : String)
    (hw₁ : w₁.data.all goIsSpace = true)
    (hw₂ : w₂.data.all goIsSpace = true) :
    refreshHandler hashFn jwtIssuer ttl db now (w₁ ++ raw ++ w₂) freshPlain =
      refreshHandler hashFn jwtIssuer ttl db now raw freshPlain ∧
    logoutHandler hashFn db now (w₁ ++ raw ++ w₂) =
      logoutHandler hashFn db now raw ∧
    (∀ s : String, s.data.all goIsSpace = true →
      refreshHandler hashFn jwtIssuer ttl db now s freshPlain =
        (db, .missingField) ∧
      logoutHandler hashFn db now s = (db, .missingField)) := by
  have hpad := goTrimSpace_pad w₁ w₂ raw hw₁ hw₂
  refine ⟨?_, ?_, ?_⟩
  · unfold refreshHandler
    rw [hpad]
  · unfold logoutHandler
    rw [hpad]
  · intro s hs
    have h0 : goTrimSpace s = "" := goTrimSpace_of_all hs
    constructor
    · unfold refreshHandler
      rw [h0, if_pos rfl]
    · unfold logoutHandler
      rw [h0, if_pos rfl]

/-- Witness for `refresh_logout_trim_padding`: space and tab padding around
a concrete token against a concrete store. -/
theorem refresh_logout_trim_padding_witness :
    refreshHandler (fun s => s) "bookrec" 3600
      ⟨[⟨1, "a@x.test", "pw"⟩], [⟨1, 1, "t0", 100, none⟩], 2⟩ 0
      ("  " ++ "t0" ++ "\t") "p1" =
      refreshHandler (fun s => s) "bookrec" 3600
        ⟨[⟨1, "a@x.test", "pw"⟩], [⟨1, 1, "t0", 100, none⟩], 2⟩ 0 "t0"
        "p1" :=
  (refresh_logout_trim_padding (fun s => s) "bookrec" 3600
    ⟨[⟨1, "a@x.test", "pw"⟩], [⟨1, 1, "t0", 100, none⟩], 2⟩ 0
    "  " "\t" "t0" "p1" (by decide) (by decide)).1
